import Mathlib

/-!
Verification of the teacher student-marks portal (Django app `portal`).

The development shallowly embeds the domain logic of the repository:
`utils.py` (validators, marks merge, authentication gate), `models.py`
(session-token lifecycle, password hashing), `serializers.py` /
`views.py` (the add/merge, inline-update and delete endpoints over an
explicit store state), and `forms.py` (login form validation).

Strings are modelled as `List Char`; the model is faithful on ASCII
inputs (Python's `str.strip` and the regex class `\s` additionally
treat some non-ASCII Unicode code points as whitespace, which this
embedding does not model).  Database time is modelled in seconds as
`Nat`.  SHA-256 is modelled as an abstract injective function where a
claim needs it.
-/

namespace Portal

/-- The ASCII whitespace characters recognised by Python's `str.strip()`
and by the regex class `\s`: space, tab, LF, CR, VT (0x0b), FF (0x0c),
and the separator control characters FS, GS, RS, US (0x1c-0x1f), for
each of which `str.isspace()` is `True`. -/
def isPySpace (c : Char) : Bool :=
  c = ' ' || c = '\t' || c = '\n' || c = '\r' || c.toNat = 11 || c.toNat = 12
    || (28 ≤ c.toNat && c.toNat ≤ 31)

/-- Python `s.strip()`: remove leading and trailing whitespace. -/
def pyStrip (s : List Char) : List Char :=
  ((s.dropWhile isPySpace).reverse.dropWhile isPySpace).reverse

/-- The character class `[a-zA-Z]` of the validators' regex. -/
def isAsciiLetter (c : Char) : Bool :=
  ('a' ≤ c && c ≤ 'z') || ('A' ≤ c && c ≤ 'Z')

/-- `re.match(r'^[a-zA-Z\s]+$', s)` succeeds: `s` is nonempty and every
character is an ASCII letter or a `\s` whitespace character.  (The `$`
anchor's optional trailing newline is itself in `\s`, so whole-string
matching reduces to this character-wise test.) -/
def lettersSpacesRegex (s : List Char) : Bool :=
  !s.isEmpty && s.all (fun c => isAsciiLetter c || isPySpace c)

/-- `validate_name` from `src/portal/utils.py` lines 26-32 (duplicated
verbatim in `src/portal/forms.py` lines 7-13), projected to its boolean
acceptance component: reject if the input is empty or its strip has
length < 2, otherwise test the regex on the stripped input.  The
accepted value the source returns alongside `True` is `name.strip()`,
i.e. `pyStrip s`. -/
def validate_name (s : List Char) : Bool :=
  if s.isEmpty || (pyStrip s).length < 2 then false
  else lettersSpacesRegex (pyStrip s)

/-- `validate_subject` from `src/portal/utils.py` lines 34-40 (duplicated
in `src/portal/forms.py` lines 15-21); identical logic to `validate_name`. -/
def validate_subject (s : List Char) : Bool :=
  if s.isEmpty || (pyStrip s).length < 2 then false
  else lettersSpacesRegex (pyStrip s)

/-- `validate_marks` from `src/portal/utils.py` lines 16-24, on an input
that already converted to an integer (the non-numeric `ValueError` path
is upstream of this model), projected to its boolean component:
`marks < 0 or marks > 100` is rejected. -/
def validate_marks (m : Int) : Bool :=
  if m < 0 || m > 100 then false else true

/-- `calculate_new_marks` from `src/portal/utils.py` lines 42-48:
`total = existing_marks + new_marks`; if `total > 100` return
`(False, total, "Total marks cannot exceed 100")`, else
`(True, total, "Marks updated successfully")`. -/
def calculate_new_marks (existing_marks new_marks : Int) : Bool × Int × String :=
  let total := existing_marks + new_marks
  if total > 100 then (false, total, "Total marks cannot exceed 100")
  else (true, total, "Marks updated successfully")

/-- `html.escape(s)` (with its default `quote=True`) as used by the
serializers and forms: replace `&` `<` `>` and the two quote characters
(0x22, 0x27) by their HTML entities, character-wise. -/
def htmlEscapeChar (c : Char) : List Char :=
  if c = '&' then ['&', 'a', 'm', 'p', ';']
  else if c = '<' then ['&', 'l', 't', ';']
  else if c = '>' then ['&', 'g', 't', ';']
  else if c.toNat = 34 then ['&', 'q', 'u', 'o', 't', ';']
  else if c.toNat = 39 then ['&', '#', 'x', '2', '7', ';']
  else [c]

/-- `html.escape` over a whole string. -/
def htmlEscape (s : List Char) : List Char :=
  (s.map htmlEscapeChar).flatten

/-- The name/subject acceptance rule as the specification words it:
after trimming, length at least 2 and only ASCII letters and the space
character `' '` (for comparison with `validate_name`, which the source
defines with the regex class `\s`). -/
def specNameAcceptance (s : List Char) : Bool :=
  decide (2 ≤ (pyStrip s).length) && (pyStrip s).all (fun c => isAsciiLetter c || c = ' ')

/-- A `Student` row from `src/portal/models.py` lines 27-44.  Teachers
are identified by their primary key (`Nat`). -/
structure Student where
  id : Nat
  name : List Char
  subject : List Char
  marks : Int
  teacher : Nat
deriving DecidableEq

/-- An `AuditLog` row from `src/portal/models.py` lines 76-93 (the
timestamp and ip_address columns are not needed by any claim and are
omitted from the model). -/
structure AuditEntry where
  teacher : Nat
  action : String
  student_name : List Char
  subject : List Char
  old_marks : Option Int
  new_marks : Option Int
deriving DecidableEq

/-- The persistent store the student endpoints read and write: the
student table, the append-only audit table (appended at the tail), and
the next auto-increment primary key. -/
structure PortalState where
  students : List Student
  audit : List AuditEntry
  nextId : Nat
deriving DecidableEq

/-- An HTTP response, reduced to status code and the fixed message the
views attach (dynamic f-string messages are abbreviated to a fixed
label; no claim inspects them). -/
structure HttpResp where
  status : Nat
  message : String
deriving DecidableEq

/-- The lookup key of `Student.objects.get(name=.., subject=.., teacher=..)`
in `StudentCreateUpdateSerializer.create`. -/
def matchesKey (name subject : List Char) (teacher : Nat) (s : Student) : Bool :=
  s.name == name && s.subject == subject && s.teacher == teacher

/-- The lookup key of `get_object_or_404(Student, id=student_id,
teacher=request.teacher)` in the update and delete views. -/
def ownedById (sid teacher : Nat) (s : Student) : Bool :=
  s.id == sid && s.teacher == teacher

/-- `StudentCreateView.post` (`src/portal/views.py` lines 91-136)
combined with `StudentCreateUpdateSerializer` (`src/portal/serializers.py`
lines 30-122): serializer validation escapes and strips name and subject
and runs the three validators; on success, `create` looks the student up
by (name, subject, teacher).  If found, `calculate_new_marks` merges; on
cap excess it raises `ValidationError`, which escapes the
`transaction.atomic()` block (rolling it back) and is caught by the
view's blanket `except Exception`, producing the 500 "Server error
occurred" response.  On merge success the row is updated and an
`UPDATE_MARKS` audit entry appended; if no row matched, a new row and a
`CREATE_STUDENT` audit entry are created.  Field-validation failure
yields the 400 "Invalid form data" response. -/
def studentCreatePost (st : PortalState) (teacher : Nat)
    (rawName rawSubject : List Char) (marks : Int) : PortalState × HttpResp :=
  if validate_name (htmlEscape (pyStrip rawName))
      && validate_subject (htmlEscape (pyStrip rawSubject))
      && validate_marks marks then
    match st.students.find?
        (matchesKey (pyStrip (htmlEscape (pyStrip rawName)))
          (pyStrip (htmlEscape (pyStrip rawSubject))) teacher) with
    | some ex =>
      if (calculate_new_marks ex.marks marks).1 then
        ({ st with
            students := st.students.map
              (fun s => if s.id == ex.id then
                { s with marks := (calculate_new_marks ex.marks marks).2.1 } else s),
            audit := st.audit ++
              [⟨teacher, "UPDATE_MARKS", pyStrip (htmlEscape (pyStrip rawName)),
                pyStrip (htmlEscape (pyStrip rawSubject)), some ex.marks,
                some (calculate_new_marks ex.marks marks).2.1⟩] },
          ⟨201, "Updated marks"⟩)
      else (st, ⟨500, "Server error occurred"⟩)
    | none =>
      ({ st with
          students := st.students ++
            [⟨st.nextId, pyStrip (htmlEscape (pyStrip rawName)),
              pyStrip (htmlEscape (pyStrip rawSubject)), marks, teacher⟩],
          audit := st.audit ++
            [⟨teacher, "CREATE_STUDENT", pyStrip (htmlEscape (pyStrip rawName)),
              pyStrip (htmlEscape (pyStrip rawSubject)), none, some marks⟩],
          nextId := st.nextId + 1 },
        ⟨201, "Student added successfully"⟩)
  else (st, ⟨400, "Invalid form data"⟩)

/-- `StudentUpdateView.post` (`src/portal/views.py` lines 143-193):
`MarksUpdateSerializer` validates the marks (400 "Invalid data" on
failure); then, inside `transaction.atomic()`, `get_object_or_404`
looks the student up by (id, teacher) — its `Http404` is caught by the
view's blanket `except Exception`, producing the 500 "Failed to update
marks" response whether the id is absent or owned by another teacher.
On success the marks column is overwritten with `new_marks` and an
`INLINE_UPDATE` audit entry is appended. -/
def studentUpdatePost (st : PortalState) (teacher sid : Nat) (marks : Int) :
    PortalState × HttpResp :=
  if validate_marks marks then
    match st.students.find? (ownedById sid teacher) with
    | some stu =>
      ({ st with
          students := st.students.map
            (fun s => if s.id == stu.id then { s with marks := marks } else s),
          audit := st.audit ++
            [⟨teacher, "INLINE_UPDATE", stu.name, stu.subject, some stu.marks, some marks⟩] },
        ⟨200, "Marks updated successfully"⟩)
    | none => (st, ⟨500, "Failed to update marks"⟩)
  else (st, ⟨400, "Invalid data"⟩)

/-- `StudentDeleteView.post` (`src/portal/views.py` lines 200-246):
inside `transaction.atomic()`, `get_object_or_404` by (id, teacher) —
its `Http404` is caught by the blanket `except Exception`, producing
the 500 "Failed to delete student" response whether the id is absent or
owned by another teacher.  On success a `DELETE_STUDENT` audit entry is
appended (old_marks = the row's marks, new_marks null) and the row is
deleted. -/
def studentDeletePost (st : PortalState) (teacher sid : Nat) :
    PortalState × HttpResp :=
  match st.students.find? (ownedById sid teacher) with
  | some stu =>
    ({ st with
        students := st.students.filter (fun s => !(s.id == stu.id)),
        audit := st.audit ++
          [⟨teacher, "DELETE_STUDENT", stu.name, stu.subject, some stu.marks, none⟩] },
      ⟨200, "Student deleted successfully"⟩)
  | none => (st, ⟨500, "Failed to delete student"⟩)

/-- A `SessionToken` row from `src/portal/models.py` lines 46-74. Time
is in seconds. -/
structure SessionTok where
  teacher : Nat
  token : String
  created_at : Nat
  expires_at : Nat
deriving DecidableEq

/-- `SessionToken.is_valid` (`src/portal/models.py` line 52-53):
`timezone.now() < self.expires_at`. -/
def SessionTok.is_valid (s : SessionTok) (now : Nat) : Bool :=
  now < s.expires_at

/-- The token-column lookup `SessionToken.objects.get(token=token)`. -/
def hasToken (tok : String) (s : SessionTok) : Bool :=
  s.token == tok

/-- `SessionToken.create_token` (`src/portal/models.py` lines 55-68):
delete every existing row of this teacher, then insert a fresh row with
`expires_at = now + 8 hours` (28800 s).  The random token value is a
parameter. -/
def create_token (store : List SessionTok) (teacher : Nat) (tok : String)
    (now : Nat) : List SessionTok :=
  (store.filter (fun s => !(s.teacher == teacher))) ++ [⟨teacher, tok, now, now + 28800⟩]

/-- Token resolution as performed by `check_auth` in
`require_authentication` (`src/portal/utils.py` lines 61-69): look the
row up by token (`DoesNotExist` yields failure) and require
`is_valid`. -/
def validate_token (store : List SessionTok) (tok : String) (now : Nat) : Option Nat :=
  match store.find? (hasToken tok) with
  | some s => if s.is_valid now then some s.teacher else none
  | none => none

/-- Session revocation: `session.delete()` in `LogoutView.post`
(`src/portal/views.py` line 269); rows are keyed by their unique token
column. -/
def revoke_token (store : List SessionTok) (tok : String) : List SessionTok :=
  store.filter (fun s => !(s.token == tok))

/-- `check_auth` inside `require_authentication` (`src/portal/utils.py`
lines 53-69): a missing cookie or the empty string (`if not token`)
fails; otherwise the token is resolved through the session table. -/
def check_auth (store : List SessionTok) (cookie : Option String) (now : Nat) :
    Option Nat :=
  match cookie with
  | none => none
  | some tok => if tok = "" then none else validate_token store tok now

/-- The observable outcome of the authentication gate. -/
inductive GateResp where
  | json401 (body : String)
  | redirectLogin
  | proceed (teacher : Nat)
deriving DecidableEq

/-- The wrapper installed by `require_authentication`
(`src/portal/utils.py` lines 71-99, identical in the function and
class-based branches): on failure, XHR callers (header
`X-Requested-With: XMLHttpRequest`) get
`JsonResponse({'error': 'Authentication required'}, status=401)` and
browser callers get `redirect('login')`; on success the resolved
teacher is bound and dispatch proceeds. -/
def require_authentication (store : List SessionTok) (cookie : Option String)
    (now : Nat) (isXhr : Bool) : GateResp :=
  match check_auth store cookie now with
  | some t => .proceed t
  | none => if isXhr then .json401 "Authentication required" else .redirectLogin

/-- A `Teacher` row from `src/portal/models.py` lines 6-25.  The
password hash column holds the digest of `raw_password ++ salt` under
the hash function, which the login model takes as a parameter. -/
structure TeacherRec where
  username : List Char
  password_hash : List Char
  salt : List Char
deriving DecidableEq

/-- `Teacher.check_password` (`src/portal/models.py` lines 18-22):
compare `hash(raw_password + salt)` with the stored hash. -/
def check_password (hash : List Char → List Char) (t : TeacherRec)
    (raw : List Char) : Bool :=
  hash (raw ++ t.salt) == t.password_hash

/-- The username-column lookup `Teacher.objects.get(username=username)`. -/
def hasUsername (u : List Char) (t : TeacherRec) : Bool :=
  t.username == u

/-- The observable outcome of `LoginView.post`: either the login page is
re-rendered with form errors (both for field-validation failures and for
bad credentials) or a session is created for the named teacher. -/
inductive LoginResult where
  | formError
  | success (username : List Char)
deriving DecidableEq

/-- `LoginView.post` (`src/portal/views.py` lines 30-70) with `LoginForm`
(`src/portal/forms.py` lines 23-53).  Django's `CharField` strips both
fields and enforces `required` and `max_length=100` on the username;
`clean_username` then HTML-escapes the stripped username and rejects
length < 3; `clean_password` rejects length < 6.  Only when the form is
valid does the view consult the teacher table
(`Teacher.objects.get(username=...)`) and `check_password`; an unknown
username or a failed password check re-renders the form with an
"Invalid credentials" error. -/
def loginPost (hash : List Char → List Char) (teachers : List TeacherRec)
    (username password : List Char) : LoginResult :=
  let u := pyStrip username
  let p := pyStrip password
  if u.isEmpty || decide (100 < u.length) || p.isEmpty then .formError
  else
    let uc := htmlEscape (pyStrip u)
    if uc.length < 3 then .formError
    else if p.length < 6 then .formError
    else
      match teachers.find? (hasUsername uc) with
      | some t => if check_password hash t p then .success t.username else .formError
      | none => .formError

/-- A primitive database effect of a request handler: a write to one of
the store tables (student, session) or an append to the audit table. -/
inductive Effect where
  | storeMutation
  | auditAppend
deriving DecidableEq

/-- The transaction structure of a handler: the list of its database
transactions in program order, each transaction the list of effects it
contains.  A statement executed outside a `transaction.atomic()` block
runs in its own autocommit transaction. -/
abbrev TxnStructure := List (List Effect)

/-- `LoginView.post` (`src/portal/views.py` lines 30-70) contains no
`transaction.atomic()` block: `SessionToken.create_token` issues a
delete of the teacher's old token rows and an insert of the new row as
two autocommit statements, and `AuditLog.objects.create` for the LOGIN
entry is a third. -/
def loginPostTxns : TxnStructure :=
  [[.storeMutation], [.storeMutation], [.auditAppend]]

/-- `LogoutView.post` (`src/portal/views.py` lines 254-275) contains no
`transaction.atomic()` block: the LOGOUT `AuditLog.objects.create` and
the `session.delete()` run as two autocommit statements. -/
def logoutPostTxns : TxnStructure :=
  [[.auditAppend], [.storeMutation]]

/-- `StudentCreateView.post` (`src/portal/views.py` lines 101-119): one
`transaction.atomic()` block wraps `serializer.save()`, which performs
the student write and the audit append. -/
def studentCreatePostTxns : TxnStructure :=
  [[.storeMutation, .auditAppend]]

/-- `StudentUpdateView.post` (`src/portal/views.py` lines 151-171): one
`transaction.atomic()` block wraps the student save and the audit
append. -/
def studentUpdatePostTxns : TxnStructure :=
  [[.storeMutation, .auditAppend]]

/-- `StudentDeleteView.post` (`src/portal/views.py` lines 207-224): one
`transaction.atomic()` block wraps the audit append and the student
delete. -/
def studentDeletePostTxns : TxnStructure :=
  [[.auditAppend, .storeMutation]]

/-- A handler pairs its store mutation atomically with its audit append
when some single transaction contains both effects. -/
def mutationAuditAtomic (t : TxnStructure) : Bool :=
  t.any (fun b => b.contains Effect.storeMutation && b.contains Effect.auditAppend)

/-! ## Claim C1: the marks-merge rule -/

/-- Claim C1 counterexample: at existing = 60, incoming = 60 the merge
fails, but the error message is "Total marks cannot exceed 100" with a
capital T — not the claimed message "total marks cannot exceed 100". -/
theorem calculate_new_marks_message_differs :
    calculate_new_marks 60 60 = (false, 120, "Total marks cannot exceed 100")
    ∧ "Total marks cannot exceed 100" ≠ "total marks cannot exceed 100" := by
  exact ⟨by decide, by decide⟩

/-- Claim C1 (amended): for all existing_marks and incoming_marks in
[0,100], `calculate_new_marks` computes total = existing + incoming; it
fails, carrying the message "Total marks cannot exceed 100", exactly
when total > 100, and otherwise succeeds returning total. -/
theorem calculate_new_marks_spec (a b : Int)
    (ha0 : 0 ≤ a) (ha1 : a ≤ 100) (hb0 : 0 ≤ b) (hb1 : b ≤ 100) :
    (calculate_new_marks a b).2.1 = a + b
    ∧ ((calculate_new_marks a b).1 = false ↔ 100 < a + b)
    ∧ (100 < a + b → (calculate_new_marks a b).2.2 = "Total marks cannot exceed 100")
    ∧ (a + b ≤ 100 → (calculate_new_marks a b).1 = true) := by
  unfold calculate_new_marks
  by_cases h : 100 < a + b <;> simp [h] <;> omega

/-- Claim C1 witness: the amended theorem applied at (60, 60). -/
theorem calculate_new_marks_spec_witness :
    (calculate_new_marks 60 60).2.1 = 60 + 60
    ∧ ((calculate_new_marks 60 60).1 = false ↔ (100 : Int) < 60 + 60)
    ∧ ((100 : Int) < 60 + 60 →
        (calculate_new_marks 60 60).2.2 = "Total marks cannot exceed 100")
    ∧ ((60 : Int) + 60 ≤ 100 → (calculate_new_marks 60 60).1 = true) :=
  calculate_new_marks_spec 60 60 (by decide) (by decide) (by decide) (by decide)

/-! ## Claim C2: per-operation atomicity of mutation and audit append -/

/-- Claim C2 counterexample: `LoginView.post` runs its session-store
mutations and its LOGIN audit append in separate autocommit
transactions — no single transaction contains both. -/
theorem login_mutation_audit_not_atomic :
    mutationAuditAtomic loginPostTxns = false := by decide

/-- Claim C2 (amended): the three student endpoints (add/merge, inline
update, delete) each pair their store mutation and audit append inside
one atomic transaction, but login and logout do not — their mutations
and audit appends run as separate autocommit transactions. -/
theorem per_operation_atomicity :
    mutationAuditAtomic studentCreatePostTxns = true
    ∧ mutationAuditAtomic studentUpdatePostTxns = true
    ∧ mutationAuditAtomic studentDeletePostTxns = true
    ∧ mutationAuditAtomic loginPostTxns = false
    ∧ mutationAuditAtomic logoutPostTxns = false := by decide

/-! ## Claim C8: the name/subject validators -/

/-- Claim C8 counterexample: the input "a TAB b" has trimmed length 3 and
contains a tab, which is neither an ASCII letter nor a space, so the
claim says it is rejected; `validate_name` accepts it because the
source regex class `\s` matches the tab. -/
theorem validate_name_accepts_tab :
    validate_name ['a', '\t', 'b'] = true
    ∧ specNameAcceptance ['a', '\t', 'b'] = false := by decide

/-- Claim C8 (amended): over ASCII inputs, `validate_name` (and the
identical `validate_subject`) accepts exactly the strings that, after
trimming, have length ≥ 2 and consist only of ASCII letters and
Python whitespace characters (space, tab, LF, CR, VT, FF, and the
separators FS, GS, RS, US, 0x1c-0x1f) — whitespace, not only the space
character. -/
theorem validators_accept_letters_whitespace (s : List Char)
    (hascii : s.all (fun c => decide (c.toNat < 128)) = true) :
    (validate_name s = true ↔
      2 ≤ (pyStrip s).length
      ∧ (pyStrip s).all (fun c => isAsciiLetter c || isPySpace c) = true)
    ∧ validate_subject s = validate_name s := by
  refine ⟨?_, rfl⟩
  unfold validate_name lettersSpacesRegex
  by_cases he : (s.isEmpty || decide ((pyStrip s).length < 2)) = true
  · simp only [if_pos he]
    simp only [Bool.or_eq_true, List.isEmpty_iff, decide_eq_true_eq] at he
    constructor
    · intro h; exact absurd h (by simp)
    · rintro ⟨hlen, -⟩
      rcases he with rfl | hlt
      · simp [pyStrip, List.dropWhile] at hlen
      · omega
  · simp only [if_neg he]
    simp only [Bool.or_eq_true, List.isEmpty_iff, decide_eq_true_eq, not_or] at he
    obtain ⟨hne, hlen⟩ := he
    constructor
    · intro h
      simp only [Bool.and_eq_true, Bool.not_eq_true', List.isEmpty_eq_false] at h
      exact ⟨by omega, h.2⟩
    · rintro ⟨-, hall⟩
      simp only [Bool.and_eq_true, Bool.not_eq_true', List.isEmpty_eq_false]
      refine ⟨?_, hall⟩
      intro hnil
      rw [hnil] at hlen
      simp at hlen

/-- Claim C8 witness: the amended theorem applied at the ASCII input
"ab". -/
theorem validators_accept_letters_whitespace_witness :
    (validate_name ['a', 'b'] = true ↔
      2 ≤ (pyStrip ['a', 'b']).length
      ∧ (pyStrip ['a', 'b']).all (fun c => isAsciiLetter c || isPySpace c) = true)
    ∧ validate_subject ['a', 'b'] = validate_name ['a', 'b'] :=
  validators_accept_letters_whitespace ['a', 'b'] (by decide)

/-! ## Helper lemmas -/

theorem calc_marks_success_iff (a b : Int) :
    (calculate_new_marks a b).1 = true ↔ a + b ≤ 100 := by
  unfold calculate_new_marks
  by_cases h : 100 < a + b <;> simp [h] <;> omega

theorem calc_marks_total (a b : Int) : (calculate_new_marks a b).2.1 = a + b := by
  unfold calculate_new_marks
  by_cases h : 100 < a + b <;> simp [h]

theorem validate_marks_range {m : Int} (h : validate_marks m = true) :
    0 ≤ m ∧ m ≤ 100 := by
  unfold validate_marks at h
  by_cases hc : (m < 0 || m > 100) = true
  · rw [if_pos hc] at h; cases h
  · simp only [Bool.or_eq_true, decide_eq_true_eq, not_or] at hc
    omega

/-! ## Claim C3: cap-exceeded merge leaves the store untouched -/

/-- Claim C3: when the submitted fields pass validation, the teacher
already has a row for the cleaned (name, subject) with marks `a`, and
the submitted marks `b` satisfy `a + b > 100`, the add/merge endpoint
fails (its 500 response from the swallowed `ValidationError`) and
returns the store exactly as it was: the stored marks remain `a` and no
audit entry is appended. -/
theorem merge_cap_exceeded_rolls_back
    (st : PortalState) (teacher : Nat) (rawName rawSubject : List Char)
    (a b : Int) (ex : Student)
    (hn : validate_name (htmlEscape (pyStrip rawName)) = true)
    (hs : validate_subject (htmlEscape (pyStrip rawSubject)) = true)
    (hm : validate_marks b = true)
    (hfind : st.students.find?
        (matchesKey (pyStrip (htmlEscape (pyStrip rawName)))
          (pyStrip (htmlEscape (pyStrip rawSubject))) teacher) = some ex)
    (ha : ex.marks = a)
    (hcap : 100 < a + b) :
    studentCreatePost st teacher rawName rawSubject b
      = (st, ⟨500, "Server error occurred"⟩) := by
  unfold studentCreatePost
  rw [hn, hs, hm, hfind]
  have hfail : (calculate_new_marks ex.marks b).1 = false := by
    rw [← Bool.not_eq_true, calc_marks_success_iff, ha]
    omega
  simp [hfail]

/-- Claim C3 witness: teacher 1 holds ("Bob", "Math") with marks 70 and
submits 40; 70 + 40 > 100, so the endpoint returns the 500 response and
the unchanged store. -/
theorem merge_cap_exceeded_rolls_back_witness :
    studentCreatePost
        ⟨[⟨1, ['B', 'o', 'b'], ['M', 'a', 't', 'h'], 70, 1⟩], [], 2⟩ 1
        ['B', 'o', 'b'] ['M', 'a', 't', 'h'] 40
      = (⟨[⟨1, ['B', 'o', 'b'], ['M', 'a', 't', 'h'], 70, 1⟩], [], 2⟩,
          ⟨500, "Server error occurred"⟩) :=
  merge_cap_exceeded_rolls_back _ 1 ['B', 'o', 'b'] ['M', 'a', 't', 'h'] 70 40
    ⟨1, ['B', 'o', 'b'], ['M', 'a', 't', 'h'], 70, 1⟩
    (by decide) (by decide) (by decide) (by decide) (by decide) (by decide)

/-! ## Claim C4: inline update overwrites rather than merges -/

/-- Claim C4: for an owned student and validated new marks, the
inline-update endpoint succeeds and sets the stored marks of that
student to exactly the submitted value — for every prior marks value,
so the result is an overwrite, independent of (and never the sum with)
the previous marks. -/
theorem inline_update_overwrites
    (st : PortalState) (teacher sid : Nat) (m : Int) (stu : Student)
    (hm : validate_marks m = true)
    (hfind : st.students.find? (ownedById sid teacher) = some stu) :
    (studentUpdatePost st teacher sid m).2 = ⟨200, "Marks updated successfully"⟩
    ∧ ∀ s ∈ (studentUpdatePost st teacher sid m).1.students,
        s.id = stu.id → s.marks = m := by
  unfold studentUpdatePost
  rw [hm, hfind]
  refine ⟨rfl, ?_⟩
  intro s hs hid
  have hs' : s ∈ st.students.map
      (fun s => if s.id == stu.id then { s with marks := m } else s) := hs
  obtain ⟨s0, hs0, rfl⟩ := List.mem_map.mp hs'
  by_cases hbe : (s0.id == stu.id) = true
  · simp only [if_pos hbe]
  · simp only [if_neg hbe] at hid
    exact absurd hid (by simpa using hbe)

/-- Claim C4 witness: the student with id 1 has marks 90; inline update
to 95 yields stored marks 95 (not 185). -/
theorem inline_update_overwrites_witness :
    (studentUpdatePost ⟨[⟨1, ['B', 'o', 'b'], ['M', 'a', 't', 'h'], 90, 1⟩], [], 2⟩ 1 1 95).2
      = ⟨200, "Marks updated successfully"⟩
    ∧ ∀ s ∈ (studentUpdatePost
          ⟨[⟨1, ['B', 'o', 'b'], ['M', 'a', 't', 'h'], 90, 1⟩], [], 2⟩ 1 1 95).1.students,
        s.id = 1 → s.marks = 95 :=
  inline_update_overwrites _ 1 1 95 ⟨1, ['B', 'o', 'b'], ['M', 'a', 't', 'h'], 90, 1⟩
    (by decide) (by decide)

/-! ## Claim C5: unowned or absent ids -/

/-- Claim C5 counterexample: student id 1 belongs to teacher 2; teacher 1
deletes id 1.  The ownership-checked lookup raises `Http404`, but the
view's blanket `except Exception` swallows it, so the response is the
generic 500 "Failed to delete student" — not a NotFound (404) result. -/
theorem delete_unowned_returns_500 :
    (studentDeletePost ⟨[⟨1, ['B', 'o', 'b'], ['M', 'a', 't', 'h'], 70, 2⟩], [], 2⟩ 1 1).2
      = ⟨500, "Failed to delete student"⟩
    ∧ (studentDeletePost
        ⟨[⟨1, ['B', 'o', 'b'], ['M', 'a', 't', 'h'], 70, 2⟩], [], 2⟩ 1 1).2.status ≠ 404 := by
  decide

/-- Claim C5 (amended): for every teacher and every student id that does
not exist or belongs to another teacher, the delete and inline-update
endpoints fail with a fixed generic server-error response (status 500 —
`get_object_or_404`'s `Http404` is swallowed by the blanket exception
handler, so no 404 is produced), leave the store unchanged, and the
response is the same constant whether the id is absent or owned by
another teacher, so nothing about other teachers' records leaks. -/
theorem unowned_id_rejected_uniformly
    (st : PortalState) (teacher sid : Nat)
    (hnone : ∀ s ∈ st.students, ¬(s.id = sid ∧ s.teacher = teacher)) :
    studentDeletePost st teacher sid = (st, ⟨500, "Failed to delete student"⟩)
    ∧ ∀ m, validate_marks m = true →
        studentUpdatePost st teacher sid m = (st, ⟨500, "Failed to update marks"⟩) := by
  have hfind : st.students.find? (ownedById sid teacher) = none := by
    rw [List.find?_eq_none]
    intro s hs
    have := hnone s hs
    simp only [ownedById, Bool.and_eq_true, beq_iff_eq]
    tauto
  constructor
  · unfold studentDeletePost
    rw [hfind]
  · intro m hm
    unfold studentUpdatePost
    rw [hm, hfind]
    simp

/-- Claim C5 witness: the amended theorem applied to a store whose only
student (id 1) belongs to teacher 2, with teacher 1 calling delete and
update on id 1. -/
theorem unowned_id_rejected_uniformly_witness :
    studentDeletePost ⟨[⟨1, ['B', 'o', 'b'], ['M', 'a', 't', 'h'], 70, 2⟩], [], 2⟩ 1 1
      = (⟨[⟨1, ['B', 'o', 'b'], ['M', 'a', 't', 'h'], 70, 2⟩], [], 2⟩,
          ⟨500, "Failed to delete student"⟩)
    ∧ ∀ m, validate_marks m = true →
        studentUpdatePost ⟨[⟨1, ['B', 'o', 'b'], ['M', 'a', 't', 'h'], 70, 2⟩], [], 2⟩ 1 1 m
          = (⟨[⟨1, ['B', 'o', 'b'], ['M', 'a', 't', 'h'], 70, 2⟩], [], 2⟩,
              ⟨500, "Failed to update marks"⟩) :=
  unowned_id_rejected_uniformly _ 1 1 (by decide)

/-! ## Claim C6: the marks range invariant -/

/-- The invariant of §3 of the specification: every stored student's
marks lie in [0, 100]. -/
abbrev MarksInv (st : PortalState) : Prop :=
  ∀ s ∈ st.students, 0 ≤ s.marks ∧ s.marks ≤ 100

/-- Claim C6: each of the three marks-writing endpoints preserves the
invariant that every stored student's marks lie in [0, 100], for every
raw input (invalid inputs are rejected by the validators before any
write). -/
theorem marks_invariant_preserved
    (st : PortalState) (teacher sid : Nat) (rawName rawSubject : List Char) (m : Int)
    (hInv : MarksInv st) :
    MarksInv (studentCreatePost st teacher rawName rawSubject m).1
    ∧ MarksInv (studentUpdatePost st teacher sid m).1
    ∧ MarksInv (studentDeletePost st teacher sid).1 := by
  refine ⟨?_, ?_, ?_⟩
  · unfold studentCreatePost
    split
    next hcond =>
      have hm : validate_marks m = true := by
        simp only [Bool.and_eq_true] at hcond
        exact hcond.2
      have hm' := validate_marks_range hm
      split
      next ex hfind =>
        split
        next hsucc =>
          have hex := hInv ex (List.mem_of_find?_eq_some hfind)
          have htot : ex.marks + m ≤ 100 := (calc_marks_success_iff _ _).mp hsucc
          intro s hs
          obtain ⟨s0, hs0, rfl⟩ := List.mem_map.mp hs
          by_cases hbe : (s0.id == ex.id) = true
          · simp only [if_pos hbe, calc_marks_total]
            constructor <;> [omega; omega]
          · simp only [if_neg hbe]
            exact hInv s0 hs0
        next hfail =>
          exact hInv
      next hfind =>
        intro s hs
        rcases List.mem_append.mp hs with h | h
        · exact hInv s h
        · simp only [List.mem_singleton] at h
          subst h
          exact hm'
    next hcond =>
      exact hInv
  · unfold studentUpdatePost
    split
    next hm =>
      have hm' := validate_marks_range hm
      split
      next stu hfind =>
        intro s hs
        obtain ⟨s0, hs0, rfl⟩ := List.mem_map.mp hs
        by_cases hbe : (s0.id == stu.id) = true
        · simp only [if_pos hbe]
          exact hm'
        · simp only [if_neg hbe]
          exact hInv s0 hs0
      next hfind =>
        exact hInv
    next hm =>
      exact hInv
  · unfold studentDeletePost
    split
    next stu hfind =>
      intro s hs
      exact hInv s (List.mem_of_mem_filter hs)
    next hfind =>
      exact hInv

/-- Claim C6 witness: the invariant-preservation theorem applied to a
concrete store satisfying the invariant. -/
theorem marks_invariant_preserved_witness :
    MarksInv (studentCreatePost
        ⟨[⟨1, ['B', 'o', 'b'], ['M', 'a', 't', 'h'], 70, 1⟩], [], 2⟩ 1
        ['B', 'o', 'b'] ['M', 'a', 't', 'h'] 20).1
    ∧ MarksInv (studentUpdatePost
        ⟨[⟨1, ['B', 'o', 'b'], ['M', 'a', 't', 'h'], 70, 1⟩], [], 2⟩ 1 1 20).1
    ∧ MarksInv (studentDeletePost
        ⟨[⟨1, ['B', 'o', 'b'], ['M', 'a', 't', 'h'], 70, 1⟩], [], 2⟩ 1 1).1 :=
  marks_invariant_preserved _ 1 1 ['B', 'o', 'b'] ['M', 'a', 't', 'h'] _ (by decide)

/-! ## Claim C7: session-token lifecycle -/

/-- Claim C7: creating a session for a teacher with a token that is
fresh for the store yields a store in which (i) the token validates at
creation time, (ii) it validates at every instant strictly before
creation + 8 hours (28800 s), (iii) it fails to validate at or after
expiry, (iv) it fails to validate after revocation, (v) the creating
teacher holds exactly one token, and (vi) if every teacher held at most
one token before, that still holds after — `create_token` deletes the
teacher's prior rows before inserting. -/
theorem session_token_lifecycle
    (store : List SessionTok) (teacher : Nat) (tok : String) (now : Nat)
    (hfresh : ∀ s ∈ store, s.token ≠ tok) :
    validate_token (create_token store teacher tok now) tok now = some teacher
    ∧ (∀ t, t < now + 28800 →
        validate_token (create_token store teacher tok now) tok t = some teacher)
    ∧ (∀ t, now + 28800 ≤ t →
        validate_token (create_token store teacher tok now) tok t = none)
    ∧ (∀ t, validate_token
        (revoke_token (create_token store teacher tok now) tok) tok t = none)
    ∧ (create_token store teacher tok now).countP (fun s => s.teacher == teacher) = 1
    ∧ ((∀ tch, store.countP (fun s => s.teacher == tch) ≤ 1) →
        ∀ tch, (create_token store teacher tok now).countP (fun s => s.teacher == tch) ≤ 1) := by
  have hnone : (store.filter (fun s => !(s.teacher == teacher))).find? (hasToken tok)
      = none := by
    rw [List.find?_eq_none]
    intro s hs
    simp only [hasToken, beq_iff_eq]
    exact hfresh s (List.mem_of_mem_filter hs)
  have hfind : (create_token store teacher tok now).find? (hasToken tok)
      = some ⟨teacher, tok, now, now + 28800⟩ := by
    unfold create_token
    rw [List.find?_append, hnone]
    simp [hasToken]
  have hval : ∀ t, t < now + 28800 →
      validate_token (create_token store teacher tok now) tok t = some teacher := by
    intro t ht
    unfold validate_token
    rw [hfind]
    simp [SessionTok.is_valid, ht]
  refine ⟨hval now (by omega), hval, ?_, ?_, ?_, ?_⟩
  · intro t ht
    unfold validate_token
    rw [hfind]
    simp only [SessionTok.is_valid, decide_eq_true_eq]
    rw [if_neg (by omega)]
  · intro t
    unfold validate_token revoke_token
    rw [List.find?_eq_none.mpr]
    intro s hs
    have := (List.mem_filter.mp hs).2
    simp only [hasToken]
    simpa using this
  · unfold create_token
    rw [List.countP_append]
    rw [List.countP_eq_zero.mpr, List.countP_cons_of_pos]
    · simp
    · simp
    · intro s hs
      have := (List.mem_filter.mp hs).2
      simpa using this
  · intro hbefore tch
    unfold create_token
    rw [List.countP_append]
    by_cases hteq : tch = teacher
    · subst hteq
      rw [List.countP_eq_zero.mpr, List.countP_cons_of_pos]
      · simp
      · simp
      · intro s hs
        have := (List.mem_filter.mp hs).2
        simpa using this
    · have h1 : List.countP (fun s => s.teacher == tch)
          (store.filter (fun s => !(s.teacher == teacher)))
          ≤ store.countP (fun s => s.teacher == tch) :=
        List.Sublist.countP_le _ (List.filter_sublist store)
      have h2 : List.countP (fun s => s.teacher == tch)
          [(⟨teacher, tok, now, now + 28800⟩ : SessionTok)] = 0 := by
        rw [List.countP_eq_zero]
        intro s hs
        simp only [List.mem_singleton] at hs
        subst hs
        simp only [beq_iff_eq]
        exact fun h => hteq h.symm
      rw [h2]
      have := hbefore tch
      omega

/-- Claim C7 witness: the lifecycle theorem applied to the empty session
store, teacher 1, token "t1", created at time 0. -/
theorem session_token_lifecycle_witness :
    validate_token (create_token [] 1 "t1" 0) "t1" 0 = some 1
    ∧ (∀ t, t < 0 + 28800 → validate_token (create_token [] 1 "t1" 0) "t1" t = some 1)
    ∧ (∀ t, 0 + 28800 ≤ t → validate_token (create_token [] 1 "t1" 0) "t1" t = none)
    ∧ (∀ t, validate_token (revoke_token (create_token [] 1 "t1" 0) "t1") "t1" t = none)
    ∧ (create_token [] 1 "t1" 0).countP (fun s => s.teacher == 1) = 1
    ∧ ((∀ tch, ([] : List SessionTok).countP (fun s => s.teacher == tch) ≤ 1) →
        ∀ tch, (create_token [] 1 "t1" 0).countP (fun s => s.teacher == tch) ≤ 1) :=
  session_token_lifecycle [] 1 "t1" 0 (by simp)

/-! ## Claim C9: uniform rejection by the authentication gate -/

/-- Claim C9: for one request with no session cookie, one with a token
unknown to the session store, and one with an expired token, the
authentication gate produces the same rejection response for the same
caller type — the fixed 401 JSON body for XHR callers, the fixed
redirect to login for browser callers — and never proceeds, so the
response reveals nothing about which of the three causes occurred. -/
theorem auth_gate_uniform_rejection
    (store : List SessionTok) (now : Nat) (isXhr : Bool)
    (tokU tokE : String) (sE : SessionTok)
    (hU1 : tokU ≠ "") (hU2 : ∀ s ∈ store, s.token ≠ tokU)
    (hE1 : tokE ≠ "") (hE2 : store.find? (hasToken tokE) = some sE)
    (hE3 : sE.expires_at ≤ now) :
    require_authentication store none now isXhr
      = require_authentication store (some tokU) now isXhr
    ∧ require_authentication store (some tokU) now isXhr
      = require_authentication store (some tokE) now isXhr
    ∧ ∀ t, require_authentication store none now isXhr ≠ GateResp.proceed t := by
  have hA : check_auth store none now = none := rfl
  have hU : check_auth store (some tokU) now = none := by
    have h : check_auth store (some tokU) now
        = if tokU = "" then none else validate_token store tokU now := rfl
    rw [h, if_neg hU1]
    unfold validate_token
    rw [List.find?_eq_none.mpr]
    intro s hs
    simp only [hasToken, beq_iff_eq]
    exact hU2 s hs
  have hE : check_auth store (some tokE) now = none := by
    have h : check_auth store (some tokE) now
        = if tokE = "" then none else validate_token store tokE now := rfl
    have hnv : sE.is_valid now = false := by
      simp only [SessionTok.is_valid, decide_eq_false_iff_not]
      omega
    rw [h, if_neg hE1]
    unfold validate_token
    rw [hE2]
    simp [hnv]
  unfold require_authentication
  rw [hA, hU, hE]
  refine ⟨rfl, rfl, ?_⟩
  intro t
  cases isXhr <;> simp

/-- Claim C9 witness: a store holding a single session expired at time
100, queried at time 100 with no cookie, with the unknown token "zz",
and with the expired token "t1". -/
theorem auth_gate_uniform_rejection_witness :
    require_authentication [⟨1, "t1", 0, 100⟩] none 100 true
      = require_authentication [⟨1, "t1", 0, 100⟩] (some "zz") 100 true
    ∧ require_authentication [⟨1, "t1", 0, 100⟩] (some "zz") 100 true
      = require_authentication [⟨1, "t1", 0, 100⟩] (some "t1") 100 true
    ∧ ∀ t, require_authentication [⟨1, "t1", 0, 100⟩] none 100 true
        ≠ GateResp.proceed t :=
  auth_gate_uniform_rejection [⟨1, "t1", 0, 100⟩] 100 true "zz" "t1" ⟨1, "t1", 0, 100⟩
    (by decide) (by decide) (by decide) (by decide) (by decide)

/-! ## Claim C10: the login length gates -/

/-- Claim C10: (i) whenever the stripped password is shorter than 6
characters, or the stripped-and-HTML-escaped username is shorter than 3
characters, `LoginView.post` re-renders the form with a validation
error, and its outcome is the same for every content of the teacher
table — the credential store is never consulted; (ii) consequently, for
any injective hash, a teacher whose stored hash was produced from a raw
password shorter than 6 characters can never log in. -/
theorem login_length_gates
    (hash : List Char → List Char) (hinj : Function.Injective hash)
    (teachers : List TeacherRec) (t : TeacherRec) (raw : List Char)
    (ht : t ∈ teachers)
    (huniq : ∀ t' ∈ teachers, t'.username = t.username → t' = t)
    (hhash : t.password_hash = hash (raw ++ t.salt))
    (hshort : raw.length < 6) :
    (∀ (ts : List TeacherRec) (u p : List Char),
      (pyStrip p).length < 6 → loginPost hash ts u p = LoginResult.formError)
    ∧ (∀ (ts : List TeacherRec) (u p : List Char),
      (htmlEscape (pyStrip (pyStrip u))).length < 3
        → loginPost hash ts u p = LoginResult.formError)
    ∧ (∀ u p : List Char, loginPost hash teachers u p ≠ LoginResult.success t.username) := by
  refine ⟨?_, ?_, ?_⟩
  · intro ts u p hp
    unfold loginPost
    by_cases h1 : ((pyStrip u).isEmpty || decide (100 < (pyStrip u).length)
        || (pyStrip p).isEmpty) = true
    · rw [if_pos h1]
    · rw [if_neg h1]
      by_cases h2 : (htmlEscape (pyStrip (pyStrip u))).length < 3
      · rw [if_pos h2]
      · rw [if_neg h2, if_pos hp]
  · intro ts u p hu
    unfold loginPost
    by_cases h1 : ((pyStrip u).isEmpty || decide (100 < (pyStrip u).length)
        || (pyStrip p).isEmpty) = true
    · rw [if_pos h1]
    · rw [if_neg h1, if_pos hu]
  · intro u p hsucc
    unfold loginPost at hsucc
    by_cases h1 : ((pyStrip u).isEmpty || decide (100 < (pyStrip u).length)
        || (pyStrip p).isEmpty) = true
    · rw [if_pos h1] at hsucc
      cases hsucc
    · rw [if_neg h1] at hsucc
      by_cases h2 : (htmlEscape (pyStrip (pyStrip u))).length < 3
      · rw [if_pos h2] at hsucc
        cases hsucc
      · rw [if_neg h2] at hsucc
        by_cases h3 : (pyStrip p).length < 6
        · rw [if_pos h3] at hsucc
          cases hsucc
        · rw [if_neg h3] at hsucc
          cases hfind : teachers.find? (hasUsername (htmlEscape (pyStrip (pyStrip u)))) with
          | none =>
            rw [hfind] at hsucc
            cases hsucc
          | some t' =>
            rw [hfind] at hsucc
            have hsucc' : (if check_password hash t' (pyStrip p) = true
                then LoginResult.success t'.username
                else LoginResult.formError) = LoginResult.success t.username := hsucc
            by_cases h4 : check_password hash t' (pyStrip p) = true
            · rw [if_pos h4] at hsucc'
              have htt : t' = t := by
                apply huniq t' (List.mem_of_find?_eq_some hfind)
                injection hsucc'
              subst htt
              unfold check_password at h4
              rw [beq_iff_eq, hhash] at h4
              have := List.append_cancel_right (hinj h4)
              have : (pyStrip p).length = raw.length := by rw [this]
              omega
            · rw [if_neg h4] at hsucc'
              cases hsucc'

/-- Claim C10 witness: with the identity function as (injective) hash,
teacher "bob" stores the digest of the 3-character raw password "abc"
with salt "s"; the gates and the never-authenticates conclusion hold at
concrete inputs. -/
theorem login_length_gates_witness :
    (∀ (ts : List TeacherRec) (u p : List Char),
      (pyStrip p).length < 6 → loginPost id ts u p = LoginResult.formError)
    ∧ (∀ (ts : List TeacherRec) (u p : List Char),
      (htmlEscape (pyStrip (pyStrip u))).length < 3
        → loginPost id ts u p = LoginResult.formError)
    ∧ (∀ u p : List Char,
      loginPost id [⟨['b', 'o', 'b'], ['a', 'b', 'c', 's'], ['s']⟩] u p
        ≠ LoginResult.success ['b', 'o', 'b']) :=
  login_length_gates id Function.injective_id [⟨['b', 'o', 'b'], ['a', 'b', 'c', 's'], ['s']⟩]
    ⟨['b', 'o', 'b'], ['a', 'b', 'c', 's'], ['s']⟩ ['a', 'b', 'c']
    (by decide) (by decide) (by decide) (by decide)

end Portal
